import Mathlib

set_option maxHeartbeats 1000000

/-!
Shallow embedding of `clientcomptage.c` (gleu/clientcomptage), a small libpq
command-line client.  The program parses flags with plain `getopt` over the
optstring "a:jmsv", connects to a hardcoded database, dispatches on the
selected action (insert, or one of three fixed reports), and closes the
connection.  We model the option parser faithfully (including glibc getopt's
argument permutation, "--" termination, in-cluster option arguments and the
missing-argument error), and we model the externally visible behaviour of a
run as a list of events: stdout writes, log lines, the connection
open/close, query submissions, table printing and the final exit code.
The database is an oracle `DB` giving, for each submitted query text, the
`PGresult` that `PQexec` would return (`none` models a null result pointer).
-/

namespace ClientComptage

/-- The `actions_t` enum of clientcomptage.c. -/
inductive Actions
  | NONE
  | AJOUT
  | JOURS
  | MOIS
  | SEMAINES
  deriving DecidableEq

/-- The `struct options` of clientcomptage.c.  The struct is obtained from
`pg_malloc` (a plain `malloc` wrapper that does not zero memory), so a run is
parameterised by an arbitrary initial value of this structure: the fields
that the code never assigns keep that arbitrary ("garbage") content.
`heures` is the C `char *` payload for the insert action, modelled as the
string it points to; `dsn`, `major` and `minor` are present in the struct but
never assigned on any path exercised here. -/
structure Options where
  script  : Option String
  verbose : Bool
  action  : Actions
  heures  : String
  dsn     : String
  major   : Int
  minor   : Int
  deriving DecidableEq

/-- Outcome of `get_opts`: a parsed options struct, the fatal usage-error
exit of the switch's default branch, or the immediate `exit(0)` paths for
help and version. -/
inductive ParseOutcome
  | ok (opts : Options)
  | usageError
  | helpExit
  | versionExit
  deriving DecidableEq

/-- Processing of one short-option cluster (the characters of an argv
element after its leading dash) by `getopt` over optstring "a:jmsv" feeding
the switch in `get_opts`:
- 'a' requires an argument: the rest of the cluster if nonempty, otherwise
  the next argv element (`needArg`); it sets the action to `AJOUT` and
  captures the argument into `heures`;
- 'j', 'm', 's' set the corresponding action;
- every other character reaches the fatal default branch of the switch and
  the process exits with a usage error.  This includes 'v': `getopt` accepts
  it (it is in the optstring) but the switch has no `case 'v':`, so it falls
  into `default:` exactly like an unknown character. -/
inductive ClusterResult
  | err
  | done (opts : Options)
  | needArg (opts : Options)
  deriving DecidableEq

/-- See `ClusterResult`. -/
def applyCluster (opts : Options) : List Char → ClusterResult
  | [] => .done opts
  | c :: cs =>
    if c = 'a' then
      match cs with
      | [] => .needArg { opts with action := .AJOUT }
      | _ :: _ => .done { opts with action := .AJOUT, heures := String.mk cs }
    else if c = 'j' then applyCluster { opts with action := .JOURS } cs
    else if c = 'm' then applyCluster { opts with action := .MOIS } cs
    else if c = 's' then applyCluster { opts with action := .SEMAINES } cs
    else .err

/-- The `getopt` scan loop of `get_opts` over the whole argument vector
(after the program name).  glibc `getopt` is modelled with its default
behaviour: non-option arguments are permuted past and every option element
is processed; an element that is exactly "--" terminates option scanning;
an element of the form `-c...` is a cluster of short options; `pendingA`
records that the previous element ended in `-a` so the current element is
consumed verbatim as its argument (`optarg`); `-a` at the very end of the
argument list is a missing-argument error, which `getopt` reports as '?'
and the switch's default branch turns into the fatal usage exit. -/
def getoptLoop (opts : Options) (pendingA : Bool) : List String → ParseOutcome
  | [] => if pendingA then .usageError else .ok opts
  | a :: rest =>
    if pendingA then getoptLoop { opts with action := .AJOUT, heures := a } false rest
    else
      match a.data with
      | c0 :: c1 :: cs =>
        if c0 = '-' then
          if c1 = '-' ∧ cs = [] then .ok opts
          else
            match applyCluster opts (c1 :: cs) with
            | .err => .usageError
            | .done o2 => getoptLoop o2 false rest
            | .needArg o2 => getoptLoop o2 true rest
        else getoptLoop opts false rest
      | _ => getoptLoop opts false rest

/-- The two defaults `get_opts` assigns before scanning:
`opts->script = NULL; opts->verbose = false;`.  No other field is given a
default. -/
def defaultsSet (init : Options) : Options :=
  { init with script := none, verbose := false }

/-- `get_opts`: set the two defaults; if there is at least one argument and
the *first* one is `--help`/`-?` print the help and exit 0, if it is
`--version`/`-V` print the version banner and exit 0; otherwise run the
`getopt` loop over the arguments.  `args` is the argument vector after the
program name (`argv[1..]`). -/
def getOpts (init : Options) (args : List String) : ParseOutcome :=
  match args with
  | [] => .ok (defaultsSet init)
  | a1 :: _ =>
    if a1 = "--help" ∨ a1 = "-?" then .helpExit
    else if a1 = "--version" ∨ a1 = "-V" then .versionExit
    else getoptLoop (defaultsSet init) false args

/-- A libpq result object, reduced to the one field the program inspects:
`PQresultStatus`.  libpq status codes: PGRES_EMPTY_QUERY = 0,
PGRES_COMMAND_OK = 1, PGRES_TUPLES_OK = 2, and every code above 2
(PGRES_BAD_RESPONSE = 5, PGRES_NONFATAL_ERROR = 6, PGRES_FATAL_ERROR = 7, …)
is what `fetch_table` itself treats as a failed query via its check
`PQresultStatus(res) > 2`. -/
structure PGresult where
  status : Nat
  deriving DecidableEq

/-- The database as seen through libpq: `pqexec q` is the result object
`PQexec(conn, q)` returns (`none` models a null result pointer, e.g. a lost
connection or out of memory), and `errorMessage` models
`PQerrorMessage(conn)`. -/
structure DB where
  pqexec : String → Option PGresult
  errorMessage : String

/-- Failure criterion for a `PQexec` outcome: a null result object, or a
result whose status is above PGRES_TUPLES_OK = 2 — the same criterion
`fetch_table` in this very program applies with
`!res || PQresultStatus(res) > 2`, and the libpq notion of a statement that
did not execute successfully (PGRES_FATAL_ERROR = 7, etc.). -/
def resultIndicatesError : Option PGresult → Bool
  | none => true
  | some r => decide (2 < r.status)

/-- Externally visible events of a run: stdout writes (`printf`),
`pg_log_error` / `pg_log_info` lines, the `connectDatabase` call, a query
submitted through `PQexec`, a result table printed by `printQuery`, a
`PQfinish` of the connection, and process exit with a code. -/
inductive Event
  | out (s : String)
  | logError (s : String)
  | logInfo (s : String)
  | connect
  | pqexec (q : String)
  | printTable (title : String)
  | finish
  | exitCode (n : Nat)
  deriving DecidableEq

/-- The error path shared by `execute` and `fetch_table`:
`pg_log_error("query failed: %s", PQerrorMessage(conn));
 pg_log_info("query was: %s", query); PQclear(...); PQfinish(conn);
 exit(EXIT_FAILURE);` — preceded by the `PQexec` call that produced the bad
result. -/
def queryFailEvents (db : DB) (query : String) : List Event :=
  [Event.pqexec query,
   Event.logError ("query failed: " ++ db.errorMessage),
   Event.logInfo ("query was: " ++ query),
   Event.finish]

/-- `execute` of clientcomptage.c.  In script mode it prints the query text
followed by ";" and a newline.  Otherwise it submits the query; only a
*null* result pointer is treated as failure (log both lines, close the
connection, exit non-zero); any non-null result — whatever its status — is
cleared and the function returns with no output.  The second component is
`some code` when the function exited the process. -/
def execute (opts : Options) (db : DB) (query : String) :
    List Event × Option Nat :=
  match opts.script with
  | some _ => ([Event.out (query ++ ";\n")], none)
  | none =>
    match db.pqexec query with
    | none => (queryFailEvents db query, some 1)
    | some _ => ([Event.pqexec query], none)

/-- `fetch_table` of clientcomptage.c.  In script mode it prints
`\echo <label>` and then the query text followed by ";".  Otherwise it
submits the query; a null result or a status above 2 is the failure path;
on success the result is rendered by `printQuery` with `label` as title. -/
def fetch_table (opts : Options) (db : DB) (label query : String) :
    List Event × Option Nat :=
  match opts.script with
  | some _ =>
    ([Event.out ("\\echo " ++ label ++ "\n"), Event.out (query ++ ";\n")], none)
  | none =>
    match db.pqexec query with
    | none => (queryFailEvents db query, some 1)
    | some r =>
      if 2 < r.status then (queryFailEvents db query, some 1)
      else ([Event.pqexec query, Event.printTable label], none)

/-- The fixed day report query of `main`. -/
def jours_query : String := "SELECT * FROM public.jours_v"

/-- The fixed month report query of `main`. -/
def mois_query : String := "SELECT * FROM public.mois"

/-- The fixed week report query of `main`. -/
def semaines_query : String := "SELECT * FROM public.semaines"

/-- The INSERT statement `main` formats for the AJOUT action: the payload
captured by `-a` is embedded verbatim in the VALUES clause. -/
def insertSql (heures : String) : String :=
  "INSERT INTO public.comptage (deb,fin) VALUES (" ++ heures ++ ")"

/-- The `switch (opts->action)` of `main`: AJOUT formats the INSERT and runs
`execute`; JOURS/MOIS/SEMAINES run `fetch_table` with their fixed label and
query; any other action value logs "No action defined". -/
def dispatchAction (opts : Options) (db : DB) : List Event × Option Nat :=
  match opts.action with
  | .AJOUT => execute opts db (insertSql opts.heures)
  | .JOURS => fetch_table opts db "Jours" jours_query
  | .MOIS => fetch_table opts db "Mois" mois_query
  | .SEMAINES => fetch_table opts db "Semaines" semaines_query
  | .NONE => ([Event.logError "No action defined"], none)

/-- The part of `main` from the (unconditional) `connectDatabase` call on,
for a given parsed options struct: connect, dispatch the action, and — when
the dispatched code did not already exit the process — `PQfinish(conn)` and
return 0. -/
def mainWithOpts (opts : Options) (db : DB) : List Event :=
  Event.connect ::
    ((dispatchAction opts db).1 ++
      (match (dispatchAction opts db).2 with
       | some c => [Event.exitCode c]
       | none => [Event.finish, Event.exitCode 0]))

/-- The help text printed by `help(progname)`. -/
def helpText (progname : String) : String :=
  progname ++ " does some stuff :)\n\n" ++
  "Usage:\n" ++
  "  " ++ progname ++ " [OPTIONS]\n" ++
  "\nGeneral options:\n" ++
  "  -a            ajout d\x27heures réalisées\n" ++
  "  -j|--jour     décompte par jour\n" ++
  "  -m|--mois     décompte par mois\n" ++
  "  -s|--semaines décompte par semaine\n" ++
  "  -v            verbose\n" ++
  "  -?|--help     show this help, then exit\n" ++
  "  -V|--version  output version information, then exit\n" ++
  "\n" ++
  "Report bugs to <guillaume@lelarge.info>.\n"

/-- The version banner; `PG_VERSION` is a build-time constant of the
PostgreSQL tree, passed in as a parameter. -/
def versionBanner (pgVersion : String) : String :=
  "pgreport 0.0.1 (compiled with PostgreSQL " ++ pgVersion ++ ")"

/-- The diagnostic of the fatal default branch of the option switch:
`pg_log_error("Try \"%s --help\" for more information.\n", progname)`. -/
def usageDiag (progname : String) : String :=
  "Try \"" ++ progname ++ " --help\" for more information.\n"

/-- A whole run of `main` for a given garbage initial options struct,
database oracle, program name, libpq version string and argument vector:
parse the options (help, version and usage errors exit before
`connectDatabase` is ever reached); on a successful parse, connect and
dispatch. -/
def mainRun (init : Options) (db : DB) (progname pgVersion : String)
    (args : List String) : List Event :=
  match getOpts init args with
  | .helpExit => [Event.out (helpText progname), Event.exitCode 0]
  | .versionExit => [Event.out (versionBanner pgVersion), Event.exitCode 0]
  | .usageError => [Event.logError (usageDiag progname), Event.exitCode 1]
  | .ok o => mainWithOpts o db

/-- Delivery of SIGINT at step `k` of a run: the events of the run that
already happened (its first `k` events) followed by the handler
`quit_properly`, which is `PQfinish(conn); exit(EXIT_FAILURE);`. -/
def sigintAt (tr : List Event) (k : Nat) : List Event :=
  tr.take k ++ [Event.finish, Event.exitCode 1]

/-- The stdout lines of a trace. -/
def outputsOf (tr : List Event) : List String :=
  tr.filterMap (fun e => match e with | .out s => some s | _ => none)

/-- The `pg_log_error` lines of a trace. -/
def logErrorsOf (tr : List Event) : List String :=
  tr.filterMap (fun e => match e with | .logError s => some s | _ => none)

/-- How many times the connection-close routine `PQfinish` runs in a
trace. -/
def countFinish : List Event → Nat
  | [] => 0
  | Event.finish :: tr => countFinish tr + 1
  | _ :: tr => countFinish tr

/-- `true` when no element of the argument vector is an option cluster the
`getopt` loop would process: every element up to a terminating "--" is a
non-option (does not start with '-', or is "-" alone).  Under this
condition the scan processes no option character at all — in particular no
action flag. -/
def noOptionArgs : List String → Bool
  | [] => true
  | a :: rest =>
    match a.data with
    | c0 :: c1 :: cs =>
      if c0 = '-' then decide (c1 = '-' ∧ cs = []) else noOptionArgs rest
    | _ => noOptionArgs rest

/-- A concrete options value standing for one possible content of the
uninitialised `pg_malloc` allocation. -/
def optsZero : Options :=
  { script := none, verbose := false, action := .NONE, heures := "",
    dsn := "", major := 0, minor := 0 }

/-- A garbage initial options value with every field nonzero, standing for
another possible content of the uninitialised allocation. -/
def optsGarb : Options :=
  { script := some "stale", verbose := true, action := .MOIS, heures := "g",
    dsn := "d", major := 9, minor := 4 }

/-- Options as they stand when script mode is on and the day report is
selected. -/
def optsScriptJ : Options :=
  { script := some "s", verbose := false, action := .JOURS, heures := "",
    dsn := "", major := 0, minor := 0 }

/-- Options for an insert invocation (AJOUT, script mode off). -/
def optsInsert : Options :=
  { script := none, verbose := false, action := .AJOUT,
    heures := "now(), now()", dsn := "", major := 0, minor := 0 }

/-- A database on which every statement succeeds with PGRES_TUPLES_OK. -/
def dbOK : DB :=
  { pqexec := fun _ => some { status := 2 }, errorMessage := "" }

/-- A database on which `PQexec` returns a null result pointer. -/
def dbNull : DB :=
  { pqexec := fun _ => none, errorMessage := "server closed the connection" }

/-- A database on which every statement yields a non-null result carrying
PGRES_FATAL_ERROR (status 7): the statement failed, but the result pointer
is not null. -/
def dbFatal : DB :=
  { pqexec := fun _ => some { status := 7 },
    errorMessage := "ERROR: relation does not exist" }

/-! ## Helper lemmas about the option parser -/

/-- `applyCluster` only ever rewrites `action` and `heures`: on a `done`
result, `script` and `verbose` are those of the input struct. -/
theorem applyCluster_done_sv (cl : List Char) :
    ∀ opts o : Options, applyCluster opts cl = ClusterResult.done o →
      o.script = opts.script ∧ o.verbose = opts.verbose := by
  induction cl with
  | nil =>
    intro opts o h
    simp only [applyCluster, ClusterResult.done.injEq] at h
    subst h; exact ⟨rfl, rfl⟩
  | cons c cs ih =>
    intro opts o h
    simp only [applyCluster] at h
    split at h
    · split at h
      · exact absurd h (by simp)
      · simp only [ClusterResult.done.injEq] at h
        subst h; exact ⟨rfl, rfl⟩
    · split at h
      · simpa using ih _ _ h
      · split at h
        · simpa using ih _ _ h
        · split at h
          · simpa using ih _ _ h
          · exact absurd h (by simp)

/-- `applyCluster` only ever rewrites `action` and `heures`: on a `needArg`
result, `script` and `verbose` are those of the input struct. -/
theorem applyCluster_needArg_sv (cl : List Char) :
    ∀ opts o : Options, applyCluster opts cl = ClusterResult.needArg o →
      o.script = opts.script ∧ o.verbose = opts.verbose := by
  induction cl with
  | nil =>
    intro opts o h
    exact absurd h (by simp [applyCluster])
  | cons c cs ih =>
    intro opts o h
    simp only [applyCluster] at h
    split at h
    · split at h
      · simp only [ClusterResult.needArg.injEq] at h
        subst h; exact ⟨rfl, rfl⟩
      · exact absurd h (by simp)
    · split at h
      · simpa using ih _ _ h
      · split at h
        · simpa using ih _ _ h
        · split at h
          · simpa using ih _ _ h
          · exact absurd h (by simp)

/-- Unfolding: the loop with no arguments left and no pending `-a`
argument returns the struct. -/
theorem getoptLoop_nil (opts : Options) :
    getoptLoop opts false [] = ParseOutcome.ok opts := rfl

/-- Unfolding: `-a` as the last option with no argument left is the
missing-argument usage error. -/
theorem getoptLoop_nil_pend (opts : Options) :
    getoptLoop opts true [] = ParseOutcome.usageError := rfl

/-- Unfolding: with a pending `-a`, the next argv element is consumed
verbatim as `optarg`. -/
theorem getoptLoop_cons_pend (opts : Options) (a : String) (rest : List String) :
    getoptLoop opts true (a :: rest) =
      getoptLoop { opts with action := Actions.AJOUT, heures := a } false rest := rfl

/-- Unfolding: one step of the scan over the next argv element. -/
theorem getoptLoop_cons (opts : Options) (a : String) (rest : List String) :
    getoptLoop opts false (a :: rest) =
      (match a.data with
       | c0 :: c1 :: cs =>
         if c0 = '-' then
           if c1 = '-' ∧ cs = [] then ParseOutcome.ok opts
           else
             match applyCluster opts (c1 :: cs) with
             | ClusterResult.err => ParseOutcome.usageError
             | ClusterResult.done o2 => getoptLoop o2 false rest
             | ClusterResult.needArg o2 => getoptLoop o2 true rest
         else getoptLoop opts false rest
       | _ => getoptLoop opts false rest) := rfl

/-- The whole `getopt` loop never assigns `script` or `verbose`: a
successful scan returns them exactly as they went in. -/
theorem getoptLoop_ok_sv (args : List String) :
    ∀ (opts : Options) (pend : Bool) (o : Options),
      getoptLoop opts pend args = ParseOutcome.ok o →
      o.script = opts.script ∧ o.verbose = opts.verbose := by
  induction args with
  | nil =>
    intro opts pend o h
    cases pend
    · obtain rfl := ParseOutcome.ok.inj
        (show ParseOutcome.ok opts = ParseOutcome.ok o from h)
      exact ⟨rfl, rfl⟩
    · exact ParseOutcome.noConfusion
        (show ParseOutcome.usageError = ParseOutcome.ok o from h)
  | cons a rest ih =>
    intro opts pend o h
    cases pend
    · rw [getoptLoop_cons] at h
      rcases hd : a.data with _ | ⟨c0, _ | ⟨c1, cs⟩⟩ <;> rw [hd] at h <;>
        dsimp only at h
      · exact ih _ _ _ h
      · exact ih _ _ _ h
      · split at h
        · split at h
          · obtain rfl := ParseOutcome.ok.inj h
            exact ⟨rfl, rfl⟩
          · rcases hac : applyCluster opts (c1 :: cs) with _ | o2 | o2 <;>
              rw [hac] at h <;> dsimp only at h
            · exact ParseOutcome.noConfusion h
            · have h1 := ih _ _ _ h
              have h2 := applyCluster_done_sv _ _ _ hac
              exact ⟨h1.1.trans h2.1, h1.2.trans h2.2⟩
            · have h1 := ih _ _ _ h
              have h2 := applyCluster_needArg_sv _ _ _ hac
              exact ⟨h1.1.trans h2.1, h1.2.trans h2.2⟩
        · exact ih _ _ _ h
    · rw [getoptLoop_cons_pend] at h
      simpa using ih _ _ _ h

/-- `get_opts` returns `script = NULL` and `verbose = false` on every
successful parse, whatever the arguments and whatever garbage the
allocation held. -/
theorem getOpts_ok_sv (init : Options) (args : List String) (o : Options)
    (h : getOpts init args = ParseOutcome.ok o) :
    o.script = none ∧ o.verbose = false := by
  cases args with
  | nil =>
    simp only [getOpts, ParseOutcome.ok.injEq] at h
    subst h; exact ⟨rfl, rfl⟩
  | cons a rest =>
    simp only [getOpts] at h
    split at h
    · simp at h
    · split at h
      · simp at h
      · simpa [defaultsSet] using getoptLoop_ok_sv _ _ _ _ h

/-- When no element of the argument vector is an option cluster, the
`getopt` loop processes no option character at all and returns its input
struct unchanged. -/
theorem getoptLoop_noOption (args : List String) :
    ∀ opts : Options, noOptionArgs args = true →
      getoptLoop opts false args = ParseOutcome.ok opts := by
  induction args with
  | nil => intro opts _; rfl
  | cons a rest ih =>
    intro opts hno
    simp only [noOptionArgs] at hno
    rw [getoptLoop_cons]
    rcases hd : a.data with _ | ⟨c0, _ | ⟨c1, cs⟩⟩ <;> rw [hd] at hno <;>
      dsimp only at hno ⊢
    · exact ih _ hno
    · exact ih _ hno
    · split at hno
      · rename_i hc0
        rw [if_pos hc0, if_pos (of_decide_eq_true hno)]
      · rename_i hc0
        rw [if_neg hc0]
        exact ih _ hno

/-- The first-argument help check: `--help` or `-?` in first position exits
immediately. -/
theorem getOpts_help (init : Options) (a : String) (rest : List String)
    (h : a = "--help" ∨ a = "-?") :
    getOpts init (a :: rest) = ParseOutcome.helpExit := by
  simp only [getOpts]
  rw [if_pos h]

/-- The first-argument version check: `--version` or `-V` in first position
exits immediately. -/
theorem getOpts_version (init : Options) (a : String) (rest : List String)
    (h : a = "--version" ∨ a = "-V") (hne : ¬(a = "--help" ∨ a = "-?")) :
    getOpts init (a :: rest) = ParseOutcome.versionExit := by
  simp only [getOpts]
  rw [if_neg hne, if_pos h]

/-- None of the four help/version strings is a plain non-option argument:
each is an option cluster, so `noOptionArgs` rejects a list starting with
one of them.  Stated for `--help`; the others are handled inline. -/
theorem noOptionArgs_not_special (a : String) (rest : List String)
    (hno : noOptionArgs (a :: rest) = true) :
    ¬(a = "--help" ∨ a = "-?") ∧ ¬(a = "--version" ∨ a = "-V") := by
  constructor <;> rintro (h | h) <;> subst h
  · rw [show noOptionArgs ("--help" :: rest) = false from rfl] at hno
    exact Bool.noConfusion hno
  · rw [show noOptionArgs ("-?" :: rest) = false from rfl] at hno
    exact Bool.noConfusion hno
  · rw [show noOptionArgs ("--version" :: rest) = false from rfl] at hno
    exact Bool.noConfusion hno
  · rw [show noOptionArgs ("-V" :: rest) = false from rfl] at hno
    exact Bool.noConfusion hno

/-- With no option cluster among the arguments, `get_opts` returns exactly
the garbage struct with only the two defaults applied. -/
theorem getOpts_noOption (init : Options) (args : List String)
    (hno : noOptionArgs args = true) :
    getOpts init args = ParseOutcome.ok (defaultsSet init) := by
  cases args with
  | nil => rfl
  | cons a rest =>
    obtain ⟨h1, h2⟩ := noOptionArgs_not_special a rest hno
    simp only [getOpts]
    rw [if_neg h1, if_neg h2]
    exact getoptLoop_noOption _ _ hno

/-! ## Helper lemmas about traces -/

/-- `countFinish` distributes over concatenation. -/
theorem countFinish_append (l1 l2 : List Event) :
    countFinish (l1 ++ l2) = countFinish l1 + countFinish l2 := by
  induction l1 with
  | nil => simp [countFinish]
  | cons e tr ih =>
    cases e <;> simp [countFinish, ih] <;> omega

/-- A trace without a `PQfinish` event has `countFinish` zero. -/
theorem countFinish_zero (l : List Event) (h : Event.finish ∉ l) :
    countFinish l = 0 := by
  induction l with
  | nil => rfl
  | cons e tr ih =>
    cases e <;> simp_all [countFinish]

/-- With script mode off and an action selected, the dispatch of `main`
always submits its statement through `PQexec` (even when the result is bad,
the submission itself happened). -/
theorem dispatch_submits (opts : Options) (db : DB)
    (hs : opts.script = none) (ha : opts.action ≠ Actions.NONE) :
    ∃ q, Event.pqexec q ∈ mainWithOpts opts db := by
  have hmem : ∃ q, Event.pqexec q ∈ (dispatchAction opts db).1 := by
    cases hact : opts.action
    case NONE => exact absurd hact ha
    case AJOUT =>
      refine ⟨insertSql opts.heures, ?_⟩
      simp only [dispatchAction, hact, execute, hs]
      cases hq : db.pqexec (insertSql opts.heures) <;> dsimp only <;>
        simp [queryFailEvents]
    case JOURS =>
      refine ⟨jours_query, ?_⟩
      simp only [dispatchAction, hact, fetch_table, hs]
      cases hq : db.pqexec jours_query <;> dsimp only
      · simp [queryFailEvents]
      · rename_i r
        by_cases hst : 2 < r.status
        · rw [if_pos hst]; simp [queryFailEvents]
        · rw [if_neg hst]; simp
    case MOIS =>
      refine ⟨mois_query, ?_⟩
      simp only [dispatchAction, hact, fetch_table, hs]
      cases hq : db.pqexec mois_query <;> dsimp only
      · simp [queryFailEvents]
      · rename_i r
        by_cases hst : 2 < r.status
        · rw [if_pos hst]; simp [queryFailEvents]
        · rw [if_neg hst]; simp
    case SEMAINES =>
      refine ⟨semaines_query, ?_⟩
      simp only [dispatchAction, hact, fetch_table, hs]
      cases hq : db.pqexec semaines_query <;> dsimp only
      · simp [queryFailEvents]
      · rename_i r
        by_cases hst : 2 < r.status
        · rw [if_pos hst]; simp [queryFailEvents]
        · rw [if_neg hst]; simp
  obtain ⟨q, hqm⟩ := hmem
  exact ⟨q, List.mem_cons_of_mem _ (List.mem_append_left _ hqm)⟩

/-! ## Claims -/

/-- Claim C1, counterexample.  With script mode enabled and the day report
selected, the run emits exactly the claimed `\echo` line and
semicolon-terminated SELECT — but the claim's "no database connection …
happens for the invocation" is false: `main` calls `connectDatabase`
unconditionally before dispatching, so the trace contains the connect
event. -/
theorem c1_counterexample :
    Event.connect ∈ mainWithOpts optsScriptJ dbOK ∧
    outputsOf (mainWithOpts optsScriptJ dbOK) =
      ["\\echo Jours\n", jours_query ++ ";\n"] := by decide

/-- Claim C1, amended: for every report action with script mode enabled,
the run emits exactly one `\echo` line carrying the action's label followed
by the semicolon-terminated fixed query of that action, and performs no
query execution (no statement is ever submitted through `PQexec`); the
database connection, however, is still opened unconditionally. -/
theorem c1_script_report (opts : Options) (db : DB)
    (hso : opts.script.isSome = true)
    (ha : opts.action = Actions.JOURS ∨ opts.action = Actions.MOIS ∨
          opts.action = Actions.SEMAINES) :
    ((opts.action = Actions.JOURS →
        outputsOf (mainWithOpts opts db) =
          ["\\echo Jours\n", jours_query ++ ";\n"]) ∧
     (opts.action = Actions.MOIS →
        outputsOf (mainWithOpts opts db) =
          ["\\echo Mois\n", mois_query ++ ";\n"]) ∧
     (opts.action = Actions.SEMAINES →
        outputsOf (mainWithOpts opts db) =
          ["\\echo Semaines\n", semaines_query ++ ";\n"])) ∧
    (∀ q, Event.pqexec q ∉ mainWithOpts opts db) := by
  obtain ⟨s, hs⟩ := Option.isSome_iff_exists.mp hso
  rcases ha with ha | ha | ha <;>
    refine ⟨⟨?_, ?_, ?_⟩, ?_⟩ <;>
    first
      | (intro hcontra; rw [ha] at hcontra; exact absurd hcontra (by decide))
      | (intro _; simp [mainWithOpts, dispatchAction, ha, fetch_table, hs,
          outputsOf])
      | (intro q; simp [mainWithOpts, dispatchAction, ha, fetch_table, hs])

/-- Claim C1 amended, witness at a concrete input. -/
theorem c1_script_report_witness :
    outputsOf (mainWithOpts optsScriptJ dbNull) =
      ["\\echo Jours\n", jours_query ++ ";\n"] :=
  ((c1_script_report optsScriptJ dbNull rfl (Or.inl rfl)).1.1) rfl

/-- Claim C2, counterexample.  `execute` treats only a *null* result
pointer as failure.  On a database where `PQexec` returns a non-null
result with status PGRES_FATAL_ERROR = 7 — an execution failure by libpq's
semantics and by the very criterion `fetch_table` in the same file applies
(`PQresultStatus(res) > 2`) — the insert invocation logs nothing, produces
no output, does not exit non-zero: it discards the failed result and the
process ends with status 0. -/
theorem c2_counterexample :
    resultIndicatesError (dbFatal.pqexec (insertSql optsInsert.heures)) = true ∧
    mainWithOpts optsInsert dbFatal =
      [Event.connect, Event.pqexec (insertSql optsInsert.heures),
       Event.finish, Event.exitCode 0] ∧
    logErrorsOf (mainWithOpts optsInsert dbFatal) = [] ∧
    Event.exitCode 0 ∈ mainWithOpts optsInsert dbFatal := by decide

/-- Claim C2, amended: for an insert invocation (action AJOUT, script mode
off), if `PQexec` returns a null result object the program logs the error
message and the offending query text, closes the connection, and exits
with a non-zero status; if `PQexec` returns a result object — whatever its
status, error statuses included — the program discards it and produces no
output, and the run ends with `PQfinish` and exit status 0. -/
theorem c2_insert_exec (opts : Options) (db : DB)
    (hs : opts.script = none) (ha : opts.action = Actions.AJOUT) :
    (db.pqexec (insertSql opts.heures) = none →
       mainWithOpts opts db =
         [Event.connect, Event.pqexec (insertSql opts.heures),
          Event.logError ("query failed: " ++ db.errorMessage),
          Event.logInfo ("query was: " ++ insertSql opts.heures),
          Event.finish, Event.exitCode 1]) ∧
    (∀ r, db.pqexec (insertSql opts.heures) = some r →
       mainWithOpts opts db =
         [Event.connect, Event.pqexec (insertSql opts.heures),
          Event.finish, Event.exitCode 0] ∧
       outputsOf (mainWithOpts opts db) = []) := by
  constructor
  · intro hq
    simp [mainWithOpts, dispatchAction, ha, execute, hs, hq, queryFailEvents]
  · intro r hq
    constructor <;>
      simp [mainWithOpts, dispatchAction, ha, execute, hs, hq, outputsOf]

/-- Claim C2 amended, witness at a concrete input. -/
theorem c2_insert_exec_witness :
    mainWithOpts optsInsert dbNull =
      [Event.connect, Event.pqexec (insertSql optsInsert.heures),
       Event.logError ("query failed: " ++ dbNull.errorMessage),
       Event.logInfo ("query was: " ++ insertSql optsInsert.heures),
       Event.finish, Event.exitCode 1] :=
  (c2_insert_exec optsInsert dbNull rfl rfl).1 rfl

/-- Claim C4 (code bug).  The help text of the program documents `-v` as a
verbose flag and the optstring "a:jmsv" makes `getopt` accept it, but the
switch in `get_opts` has no `case 'v':`, so `-v` falls into the fatal
default branch: the invocation terminates with a usage error and exit
status 1, never reaching the connector. -/
theorem c4_dash_v :
    getOpts optsZero ["-v"] = ParseOutcome.usageError ∧
    mainRun optsZero dbOK "clientcomptage" "15" ["-v"] =
      [Event.logError (usageDiag "clientcomptage"), Event.exitCode 1] ∧
    Event.exitCode 0 ∉ mainRun optsZero dbOK "clientcomptage" "15" ["-v"] := by
  decide

/-- Claim C5 (code bug).  The program uses plain `getopt`, not
`getopt_long`, and declares no long-option table, so `--jour`, `--mois`
and `--semaines` are scanned as short-option clusters whose first
character '-' is unrecognized: each long form is a fatal usage error,
while the short forms `-j`, `-m`, `-s` select the corresponding report —
although the program's own help text documents `-j|--jour`, `-m|--mois`
and `-s|--semaines` as equivalent. -/
theorem c5_long_options :
    getOpts optsZero ["--jour"] = ParseOutcome.usageError ∧
    getOpts optsZero ["--mois"] = ParseOutcome.usageError ∧
    getOpts optsZero ["--semaines"] = ParseOutcome.usageError ∧
    getOpts optsZero ["-j"] =
      ParseOutcome.ok { optsZero with action := Actions.JOURS } ∧
    getOpts optsZero ["-m"] =
      ParseOutcome.ok { optsZero with action := Actions.MOIS } ∧
    getOpts optsZero ["-s"] =
      ParseOutcome.ok { optsZero with action := Actions.SEMAINES } := by decide

/-- Claim C7: when the selected action is none of
{AJOUT, JOURS, MOIS, SEMAINES}, the run logs "No action defined" and still
reaches the unconditional `PQfinish` before the process exits (with status
0): the connection is closed before exit. -/
theorem c7_no_action (opts : Options) (db : DB)
    (h : opts.action = Actions.NONE) :
    mainWithOpts opts db =
      [Event.connect, Event.logError "No action defined", Event.finish,
       Event.exitCode 0] := by
  simp [mainWithOpts, dispatchAction, h]

/-- Claim C7, witness at a concrete input. -/
theorem c7_no_action_witness :
    mainWithOpts optsZero dbOK =
      [Event.connect, Event.logError "No action defined", Event.finish,
       Event.exitCode 0] :=
  c7_no_action optsZero dbOK rfl

/-- Claim C8, counterexample.  If SIGINT is delivered after `main`'s own
`PQfinish` has already run but before the process has exited (step 3 of
the no-action run: after connect, log, finish, before the exit), the
handler `quit_properly` calls `PQfinish` on the same connection handle a
second time: the close routine runs twice, refuting "invoked exactly once
…, never twice". -/
theorem c8_counterexample :
    Event.connect ∈ (mainWithOpts optsZero dbOK).take 3 ∧
    countFinish (sigintAt (mainWithOpts optsZero dbOK) 3) = 2 := by decide

/-- Claim C8, amended: if SIGINT is delivered after the connection is
established, the handler closes the connection and then terminates the
process — so a close always precedes termination — and the close routine
runs exactly once provided the signal arrives before `main`'s own
`PQfinish` has run; in the window between `main`'s `PQfinish` and process
exit, the handler closes the handle a second time. -/
theorem c8_sigint (opts : Options) (db : DB) (k : Nat)
    (hconn : Event.connect ∈ (mainWithOpts opts db).take k)
    (hnf : Event.finish ∉ (mainWithOpts opts db).take k) :
    sigintAt (mainWithOpts opts db) k =
      (mainWithOpts opts db).take k ++ [Event.finish, Event.exitCode 1] ∧
    countFinish (sigintAt (mainWithOpts opts db) k) = 1 := by
  refine ⟨rfl, ?_⟩
  unfold sigintAt
  rw [countFinish_append, countFinish_zero _ hnf]
  simp [countFinish]

/-- Claim C8 amended, witness at a concrete input. -/
theorem c8_sigint_witness :
    sigintAt (mainWithOpts optsZero dbOK) 1 =
      (mainWithOpts optsZero dbOK).take 1 ++
        [Event.finish, Event.exitCode 1] ∧
    countFinish (sigintAt (mainWithOpts optsZero dbOK) 1) = 1 :=
  c8_sigint optsZero dbOK 1 (by decide) (by decide)

/-- Claim C9: no recognized flag ever assigns the `script` field, so after
every successful parse it is its default NULL; consequently the
script-mode branches of `execute` and `fetch_table` are unreachable
through the command line, and every invocation that selects an action
submits its statement to the database through `PQexec`. -/
theorem c9_script_unreachable :
    (∀ (init : Options) (args : List String) (o : Options),
        getOpts init args = ParseOutcome.ok o → o.script = none) ∧
    (∀ (init : Options) (args : List String) (o : Options) (db : DB)
        (p v : String),
        getOpts init args = ParseOutcome.ok o → o.action ≠ Actions.NONE →
        ∃ q, Event.pqexec q ∈ mainRun init db p v args) := by
  constructor
  · intro init args o h
    exact (getOpts_ok_sv init args o h).1
  · intro init args o db p v h ha
    have hs := (getOpts_ok_sv init args o h).1
    have he : mainRun init db p v args = mainWithOpts o db := by
      unfold mainRun
      rw [h]
    rw [he]
    exact dispatch_submits o db hs ha

/-- Claim C9, witness at a concrete input. -/
theorem c9_script_unreachable_witness :
    ({ optsZero with action := Actions.JOURS } : Options).script = none ∧
    ∃ q, Event.pqexec q ∈ mainRun optsZero dbOK "clientcomptage" "15" ["-j"] :=
  ⟨c9_script_unreachable.1 optsZero ["-j"]
     { optsZero with action := Actions.JOURS } (by decide),
   c9_script_unreachable.2 optsZero ["-j"]
     { optsZero with action := Actions.JOURS } dbOK "clientcomptage" "15"
     (by decide) (by decide)⟩

/-- Claim C10: option parsing assigns defaults only to `script` and
`verbose`; the struct comes from a non-zeroing allocator, so on every
invocation that supplies no action flag the `action` and `heures` fields
reaching the dispatch of `main` are whatever garbage the allocation held —
and the no-action behaviour is not determined by the program text: two
possible garbage contents give two different runs on the same (empty)
argument list. -/
theorem c10_uninitialized :
    (∀ (init : Options) (args : List String) (o : Options),
        getOpts init args = ParseOutcome.ok o → noOptionArgs args = true →
        o.script = none ∧ o.verbose = false ∧
        o.action = init.action ∧ o.heures = init.heures) ∧
    (∃ init1 init2 : Options,
        mainRun init1 dbOK "clientcomptage" "15" [] ≠
        mainRun init2 dbOK "clientcomptage" "15" []) := by
  constructor
  · intro init args o h hno
    rw [getOpts_noOption init args hno] at h
    obtain rfl := ParseOutcome.ok.inj h
    exact ⟨rfl, rfl, rfl, rfl⟩
  · exact ⟨optsZero, { optsZero with action := Actions.JOURS }, by decide⟩

/-- Claim C10, witness at a concrete input. -/
theorem c10_uninitialized_witness :
    (defaultsSet optsGarb).script = none ∧
    (defaultsSet optsGarb).verbose = false ∧
    (defaultsSet optsGarb).action = optsGarb.action ∧
    (defaultsSet optsGarb).heures = optsGarb.heures :=
  c10_uninitialized.1 optsGarb ["payload"] (defaultsSet optsGarb)
    (by decide) (by decide)

/-- A run whose first argument is `--help` or `-?` prints the help text
and exits 0. -/
theorem mainRun_help (init : Options) (db : DB) (p v a : String)
    (rest : List String) (h : a = "--help" ∨ a = "-?") :
    mainRun init db p v (a :: rest) =
      [Event.out (helpText p), Event.exitCode 0] := by
  unfold mainRun
  rw [getOpts_help init a rest h]

/-- A run whose first argument is `--version` or `-V` prints the version
banner and exits 0. -/
theorem mainRun_version (init : Options) (db : DB) (p v a : String)
    (rest : List String) (h : a = "--version" ∨ a = "-V")
    (hne : ¬(a = "--help" ∨ a = "-?")) :
    mainRun init db p v (a :: rest) =
      [Event.out (versionBanner v), Event.exitCode 0] := by
  unfold mainRun
  rw [getOpts_version init a rest h hne]

/-- Claim C3, counterexample.  `get_opts` checks for help/version only at
`argv[1]`.  With `--help` in second position (after `-j`), the `getopt`
scan reaches `--help`, reads its leading '-' as an unrecognized option
character, and the program exits 1 with the usage diagnostic — it neither
prints the help text nor exits 0. -/
theorem c3_counterexample :
    mainRun optsZero dbOK "clientcomptage" "15" ["-j", "--help"] =
      [Event.logError (usageDiag "clientcomptage"), Event.exitCode 1] ∧
    Event.exitCode 0 ∉
      mainRun optsZero dbOK "clientcomptage" "15" ["-j", "--help"] ∧
    Event.out (helpText "clientcomptage") ∉
      mainRun optsZero dbOK "clientcomptage" "15" ["-j", "--help"] := by decide

/-- Claim C3, amended: when `--help` (or `-?`) or `--version` (or `-V`)
occurs as the *first* command-line argument, the program prints the
corresponding informational text and exits with status 0 without
attempting a database connection, whatever arguments follow. -/
theorem c3_first_arg (init : Options) (db : DB) (p v a : String)
    (rest : List String)
    (h : a = "--help" ∨ a = "-?" ∨ a = "--version" ∨ a = "-V") :
    ((a = "--help" ∨ a = "-?") →
       mainRun init db p v (a :: rest) =
         [Event.out (helpText p), Event.exitCode 0]) ∧
    ((a = "--version" ∨ a = "-V") →
       mainRun init db p v (a :: rest) =
         [Event.out (versionBanner v), Event.exitCode 0]) ∧
    Event.connect ∉ mainRun init db p v (a :: rest) := by
  refine ⟨fun h2 => mainRun_help init db p v a rest h2, ?_, ?_⟩
  · intro h2
    refine mainRun_version init db p v a rest h2 ?_
    rcases h2 with h2 | h2 <;> subst h2 <;> rintro (hx | hx) <;>
      exact absurd hx (by decide)
  · rcases h with h | h | h | h
    · rw [mainRun_help init db p v a rest (Or.inl h)]; simp
    · rw [mainRun_help init db p v a rest (Or.inr h)]; simp
    · subst h
      rw [mainRun_version init db p v "--version" rest (Or.inl rfl)
            (by rintro (hx | hx) <;> exact absurd hx (by decide))]
      simp
    · subst h
      rw [mainRun_version init db p v "-V" rest (Or.inr rfl)
            (by rintro (hx | hx) <;> exact absurd hx (by decide))]
      simp

/-- Claim C3 amended, witness at a concrete input. -/
theorem c3_first_arg_witness :
    mainRun optsZero dbOK "clientcomptage" "15" ["--help", "-j"] =
      [Event.out (helpText "clientcomptage"), Event.exitCode 0] :=
  (c3_first_arg optsZero dbOK "clientcomptage" "15" "--help" ["-j"]
      (Or.inl rfl)).1 (Or.inl rfl)

/-- Claim C6, counterexample.  The argument list `-a -x` contains the flag
`-x`, which is none of the recognized ones — yet the program does not fail:
`getopt` consumes `-x` as the required argument of `-a` (`optarg`), the
parse succeeds, the connector runs and the process exits 0. -/
theorem c6_counterexample :
    mainRun optsZero dbOK "clientcomptage" "15" ["-a", "-x"] =
      [Event.connect, Event.pqexec (insertSql "-x"), Event.finish,
       Event.exitCode 0] ∧
    Event.connect ∈ mainRun optsZero dbOK "clientcomptage" "15" ["-a", "-x"] ∧
    Event.exitCode 0 ∈
      mainRun optsZero dbOK "clientcomptage" "15" ["-a", "-x"] := by decide

/-- Claim C6, amended: whenever the option scan actually reaches an
unrecognized option character — it is not consumed as the argument of
`-a`, not hidden behind `--`, and not preempted by a first-position
help/version flag — the program prints the diagnostic naming the program
and exits 1 without attempting a database connection; in particular a
single flag `-c` with `c` outside the recognized characters always does
so. -/
theorem c6_unrecognized (init : Options) (db : DB) (p v : String) :
    (∀ args, getOpts init args = ParseOutcome.usageError →
       mainRun init db p v args =
         [Event.logError (usageDiag p), Event.exitCode 1] ∧
       Event.connect ∉ mainRun init db p v args) ∧
    (∀ c : Char, c ∉ (['a', 'j', 'm', 's', 'v', '-', '?', 'V'] : List Char) →
       getOpts init [String.mk ['-', c]] = ParseOutcome.usageError) := by
  constructor
  · intro args h
    have he : mainRun init db p v args =
        [Event.logError (usageDiag p), Event.exitCode 1] := by
      unfold mainRun
      rw [h]
    refine ⟨he, ?_⟩
    rw [he]
    simp
  · intro c hc
    simp only [List.mem_cons, List.not_mem_nil, or_false, not_or] at hc
    obtain ⟨hca, hcj, hcm, hcs, hcv, hcd, hcq, hcV⟩ := hc
    have h1 : ¬(String.mk ['-', c] = "--help" ∨ String.mk ['-', c] = "-?") := by
      rintro (he | he)
      · have hdt : (['-', c] : List Char) = ['-', '-', 'h', 'e', 'l', 'p'] :=
          congrArg String.data he
        simp at hdt
      · have hdt : (['-', c] : List Char) = ['-', '?'] :=
          congrArg String.data he
        simp at hdt
        exact hcq hdt
    have h2 : ¬(String.mk ['-', c] = "--version" ∨
                String.mk ['-', c] = "-V") := by
      rintro (he | he)
      · have hdt : (['-', c] : List Char) =
            ['-', '-', 'v', 'e', 'r', 's', 'i', 'o', 'n'] :=
          congrArg String.data he
        simp at hdt
      · have hdt : (['-', c] : List Char) = ['-', 'V'] :=
          congrArg String.data he
        simp at hdt
        exact hcV hdt
    show getOpts init (String.mk ['-', c] :: []) = ParseOutcome.usageError
    simp only [getOpts]
    rw [if_neg h1, if_neg h2, getoptLoop_cons]
    rw [show (String.mk ['-', c]).data = '-' :: c :: [] from rfl]
    dsimp only
    rw [if_pos rfl,
      if_neg (show ¬(c = '-' ∧ ([] : List Char) = []) from fun hh => hcd hh.1)]
    have hap : applyCluster (defaultsSet init) [c] = ClusterResult.err := by
      simp only [applyCluster]
      rw [if_neg hca, if_neg hcj, if_neg hcm, if_neg hcs]
    rw [hap]

/-- Claim C6 amended, witness at a concrete input. -/
theorem c6_unrecognized_witness :
    (mainRun optsZero dbOK "clientcomptage" "15" ["-x"] =
       [Event.logError (usageDiag "clientcomptage"), Event.exitCode 1] ∧
     Event.connect ∉ mainRun optsZero dbOK "clientcomptage" "15" ["-x"]) ∧
    getOpts optsZero [String.mk ['-', 'z']] = ParseOutcome.usageError :=
  ⟨(c6_unrecognized optsZero dbOK "clientcomptage" "15").1 ["-x"] (by decide),
   (c6_unrecognized optsZero dbOK "clientcomptage" "15").2 'z' (by decide)⟩

end ClientComptage
